import Mathlib

/-!
Shallow embedding of `src/app.py` (an sqlite-backed entry-card form).

The store is a single table of rows, modelled as a `List Entry` in rowid
(insertion) order.  The sqlite statements of `EntryFormLogic` become pure
functions on that list; a statement that can raise `sqlite3.Error`
(a UNIQUE-constraint violation on `sr_no` or `associate_id`) is modelled as
an `Option (List Entry)` with `none` for the raised error, and the Python
`try/except` wrappers catch it into a `Bool × List Entry` result.

Strings are Lean `String`s.  Python's `str.isdigit` is modelled exactly:
true iff the string is non-empty and every character lies in the Unicode
table of digit characters (`pyDigitRanges`, the closed code-point ranges on
which CPython's `str.isdigit` is true — the ASCII digits together with the
non-ASCII Unicode decimal digits, superscripts, subscripts and other
digit-valued characters).
-/

/-- One row of the `entries` table, which is also the `data` dict the view
passes to the logic layer: ten fields, `sr_no` INTEGER PRIMARY KEY,
`associate_id` UNIQUE. -/
structure Entry where
  sr_no : Int
  associate_id : String
  date : String
  name : String
  mobile : String
  height : String
  age : Int
  email : String
  adhaar : String
  dob : String
deriving DecidableEq, Repr, Inhabited

/-- The closed code-point ranges on which Python `str.isdigit` is true for a
single character (CPython 3.11 Unicode tables): characters of
Numeric_Type Decimal or Digit.  The first range is the ASCII digits
48–57; the fourth (1632–1641) is the Arabic-Indic digits. -/
def pyDigitRanges : List (Nat × Nat) :=
  [(48, 57), (178, 179), (185, 185), (1632, 1641), (1776, 1785), 
   (1984, 1993), (2406, 2415), (2534, 2543), (2662, 2671), (2790, 2799), 
   (2918, 2927), (3046, 3055), (3174, 3183), (3302, 3311), (3430, 3439), 
   (3558, 3567), (3664, 3673), (3792, 3801), (3872, 3881), (4160, 4169), 
   (4240, 4249), (4969, 4977), (6112, 6121), (6160, 6169), (6470, 6479), 
   (6608, 6618), (6784, 6793), (6800, 6809), (6992, 7001), (7088, 7097), 
   (7232, 7241), (7248, 7257), (8304, 8304), (8308, 8313), (8320, 8329), 
   (9312, 9320), (9332, 9340), (9352, 9360), (9450, 9450), (9461, 9469), 
   (9471, 9471), (10102, 10110), (10112, 10120), (10122, 10130), 
   (42528, 42537), (43216, 43225), (43264, 43273), (43472, 43481), 
   (43504, 43513), (43600, 43609), (44016, 44025), (65296, 65305), 
   (66720, 66729), (68160, 68163), (68912, 68921), (69216, 69224), 
   (69714, 69722), (69734, 69743), (69872, 69881), (69942, 69951), 
   (70096, 70105), (70384, 70393), (70736, 70745), (70864, 70873), 
   (71248, 71257), (71360, 71369), (71472, 71481), (71904, 71913), 
   (72016, 72025), (72784, 72793), (73040, 73049), (73120, 73129), 
   (92768, 92777), (92864, 92873), (93008, 93017), (120782, 120831), 
   (123200, 123209), (123632, 123641), (125264, 125273), (127232, 127242), 
   (130032, 130041)]

/-- Python `str.isdigit` for one character: membership in one of the digit
code-point ranges. -/
def pyIsDigitChar (c : Char) : Bool :=
  pyDigitRanges.any (fun r => r.1 ≤ c.toNat ∧ c.toNat ≤ r.2)

/-- Python `str.isdigit`: true iff the string is non-empty and every
character is a digit character. -/
def pyIsDigit (s : String) : Bool :=
  !s.data.isEmpty && s.data.all pyIsDigitChar

namespace EntryFormLogic

/-- `SELECT MAX(sr_no) FROM entries`: `none` on an empty table. -/
def maxSrNo : List Entry → Option Int
  | [] => none
  | e :: es =>
    match maxSrNo es with
    | none => some e.sr_no
    | some m => some (max e.sr_no m)

/-- `get_next_sr_no`: 1 if `MAX(sr_no)` is NULL, else the max plus 1. -/
def get_next_sr_no (t : List Entry) : Int :=
  match maxSrNo t with
  | none => 1
  | some m => m + 1

/-- `get_all_entries`: `SELECT * FROM entries ORDER BY sr_no`. -/
def get_all_entries (t : List Entry) : List Entry :=
  t.insertionSort (fun a b => a.sr_no ≤ b.sr_no)

/-- `get_entry_by_sr_no`: `SELECT * WHERE sr_no = ?` then `fetchone` —
the first matching row in rowid order, or `none`. -/
def get_entry_by_sr_no (t : List Entry) (sr : Int) : Option Entry :=
  t.find? (fun e => e.sr_no == sr)

/-- `validate_form(data, updating)`: collects the error messages in the
source's order.  The duplicate-associate check is `fetchone` on
`WHERE associate_id = ?` with the self-row excluded (matched by `sr_no`)
when updating; the duplicate-`sr_no` check runs only when not updating. -/
def validate_form (t : List Entry) (d : Entry) (updating : Bool) : List String :=
  (if d.associate_id = "" then ["Associate I.D. No. is required."] else []) ++
  (if d.name = "" then ["Name is required."] else []) ++
  (if d.mobile = "" then ["Mobile number is required."]
   else if d.mobile.length ≠ 10 ∨ pyIsDigit d.mobile = false then
     ["Mobile number must be exactly 10 digits."]
   else []) ++
  (if d.age ≠ 0 ∧ (d.age < 0 ∨ 120 < d.age) then
     ["Please enter a valid age between 0 and 120."] else []) ++
  (if d.email ≠ "" ∧ d.email.data.contains '@' = false then
     ["Please enter a valid email address."] else []) ++
  (if d.adhaar ≠ "" ∧ (d.adhaar.length ≠ 12 ∨ pyIsDigit d.adhaar = false) then
     ["Adhaar Card No. must be exactly 12 digits."] else []) ++
  (match t.find? (fun e => e.associate_id == d.associate_id) with
   | some e0 =>
     if updating = false ∨ e0.sr_no ≠ d.sr_no then
       ["Duplicate Associate I.D. No. found."]
     else []
   | none => []) ++
  (if updating = false ∧ (t.find? (fun e => e.sr_no == d.sr_no)).isSome then
     ["Duplicate Sr. No. found."] else [])

/-- The `INSERT` statement: appends the row, or raises (`none`) on a
UNIQUE violation of the `sr_no` primary key or of `associate_id`. -/
def insert_row (t : List Entry) (d : Entry) : Option (List Entry) :=
  if (t.find? (fun e => e.sr_no == d.sr_no)).isSome then none
  else if (t.find? (fun e => e.associate_id == d.associate_id)).isSome then none
  else some (t ++ [d])

/-- `save_entry`: runs the `INSERT` inside `try/except sqlite3.Error`,
returning `True` on success and `False` (table unchanged) on error. -/
def save_entry (t : List Entry) (d : Entry) : Bool × List Entry :=
  match insert_row t d with
  | some t2 => (true, t2)
  | none => (false, t)

/-- The row rewrite the `UPDATE` statement performs on a matching row:
every field except `sr_no` is set from `d`. -/
def rewrite_row (d : Entry) (e : Entry) : Entry :=
  { d with sr_no := e.sr_no }

/-- The `UPDATE ... WHERE sr_no = ?` statement: rewrites all matching rows,
or raises (`none`) when a rewritten row's new `associate_id` collides with a
distinct row's, violating the UNIQUE constraint. -/
def update_stmt (t : List Entry) (d : Entry) : Option (List Entry) :=
  if (∃ e ∈ t, e.sr_no = d.sr_no) ∧
     (∃ e ∈ t, e.sr_no ≠ d.sr_no ∧ e.associate_id = d.associate_id) then none
  else some (t.map (fun e => if e.sr_no == d.sr_no then rewrite_row d e else e))

/-- `update_entry`: the `UPDATE` inside `try/except`, as a boolean result. -/
def update_entry (t : List Entry) (d : Entry) : Bool × List Entry :=
  match update_stmt t d with
  | some t2 => (true, t2)
  | none => (false, t)

/-- The `DELETE FROM entries WHERE sr_no = ?` statement: removes every
matching row; no constraint can fail. -/
def delete_stmt (t : List Entry) (sr : Int) : List Entry :=
  t.filter (fun e => e.sr_no != sr)

/-- `delete_entry`: the `DELETE` inside `try/except`; always succeeds. -/
def delete_entry (t : List Entry) (sr : Int) : Bool × List Entry :=
  (true, delete_stmt t sr)

end EntryFormLogic

namespace EntryFormView

/-- The view's state: the store's table (held by the logic object), the
cached `self.entries` list, the navigation cursor `self.current_entry_index`
(`none` is Add mode), and the ten widget variables. -/
structure ViewState where
  table : List Entry
  entries : List Entry
  current_entry_index : Option Nat
  sr_no_var : Int
  date_var : String
  associate_id_var : String
  name_var : String
  mobile_var : String
  height_var : String
  age_var : Int
  email_var : String
  adhaar_var : String
  dob_var : String
deriving DecidableEq, Repr

/-- Enabled (`normal` = `true`) / disabled states of the five buttons, as
`set_navigation_buttons_state` computes them. -/
structure NavButtons where
  prev_enabled : Bool
  next_enabled : Bool
  update_enabled : Bool
  delete_enabled : Bool
  submit_enabled : Bool
deriving DecidableEq, Repr

/-- `load_entry`: copies a row's ten fields into the widget variables.
(No field of the model is `NULL`, so the `if entry[k] is not None` guards
of the source always take their first branch.) -/
def load_entry (s : ViewState) (e : Entry) : ViewState :=
  { s with
    sr_no_var := e.sr_no, associate_id_var := e.associate_id,
    date_var := e.date, name_var := e.name, mobile_var := e.mobile,
    height_var := e.height, age_var := e.age, email_var := e.email,
    adhaar_var := e.adhaar, dob_var := e.dob }

/-- `set_navigation_buttons_state`: in Add mode Previous/Next are enabled
iff the cached list is non-empty; in Browse mode they are disabled exactly
at the first / last index (indices compared as Python ints). -/
def set_navigation_buttons_state (s : ViewState) : NavButtons :=
  match s.current_entry_index with
  | none =>
    { prev_enabled := !s.entries.isEmpty, next_enabled := !s.entries.isEmpty,
      update_enabled := false, delete_enabled := false, submit_enabled := true }
  | some i =>
    { prev_enabled := decide (i ≠ 0),
      next_enabled := decide ((i : Int) ≠ (s.entries.length : Int) - 1),
      update_enabled := true, delete_enabled := true, submit_enabled := false }

/-- `next_entry`: advances the cursor and loads the next row when both the
cached list is non-empty and a cursor is set and not at the last index;
otherwise only shows an informational message. -/
def next_entry (s : ViewState) : ViewState × Option String :=
  match s.current_entry_index with
  | some i =>
    if !s.entries.isEmpty then
      if (i : Int) < (s.entries.length : Int) - 1 then
        match s.entries[i + 1]? with
        | some e => (load_entry { s with current_entry_index := some (i + 1) } e, none)
        | none => ({ s with current_entry_index := some (i + 1) }, none)
      else (s, some "This is the last entry.")
    else (s, some "No entries available.")
  | none => (s, some "No entries available.")

/-- `prev_entry`: the mirror of `next_entry` towards index 0. -/
def prev_entry (s : ViewState) : ViewState × Option String :=
  match s.current_entry_index with
  | some i =>
    if !s.entries.isEmpty then
      if 0 < i then
        match s.entries[i - 1]? with
        | some e => (load_entry { s with current_entry_index := some (i - 1) } e, none)
        | none => ({ s with current_entry_index := some (i - 1) }, none)
      else (s, some "This is the first entry.")
    else (s, some "No entries available.")
  | none => (s, some "No entries available.")

/-- `reset_form`: Add mode — next serial number and today pre-filled, the
other fields cleared, the cached list re-read, the cursor unset. -/
def reset_form (today : String) (s : ViewState) : ViewState :=
  { s with
    sr_no_var := EntryFormLogic.get_next_sr_no s.table,
    date_var := today,
    associate_id_var := "", name_var := "", mobile_var := "",
    height_var := "", age_var := 0, email_var := "", adhaar_var := "",
    dob_var := "",
    entries := EntryFormLogic.get_all_entries s.table,
    current_entry_index := none }

/-- `EntryFormView.delete_entry`: with no cursor it only reports an error;
without confirmation it does nothing; otherwise it deletes by the displayed
serial number, drops index `i` from the cached list, and either resets to
Add mode (list now empty) or clamps the cursor into bounds and loads that
row. -/
def delete_entry (today : String) (confirm : Bool) (s : ViewState) :
    ViewState × Option String :=
  match s.current_entry_index with
  | none => (s, some "No entry selected to delete.")
  | some i =>
    if confirm = false then (s, none)
    else
      let res := EntryFormLogic.delete_entry s.table s.sr_no_var
      if res.1 then
        let s1 := { s with table := res.2, entries := s.entries.eraseIdx i }
        if s1.entries.isEmpty then
          (reset_form today s1, some "Entry deleted successfully.")
        else
          let j := if s1.entries.length ≤ i then s1.entries.length - 1 else i
          let s2 := { s1 with current_entry_index := some j }
          match s1.entries[j]? with
          | some e => (load_entry s2 e, some "Entry deleted successfully.")
          | none => (s2, some "Entry deleted successfully.")
      else (s, some "An error occurred while deleting the entry.")

end EntryFormView

/-- A well-formed sample row used by the concrete witnesses. -/
def sampleEntry (sr : Int) (assoc : String) : Entry :=
  { sr_no := sr, associate_id := assoc, date := "2024-01-01", name := "Ann",
    mobile := "1234567890", height := "170", age := 30,
    email := "ann@example.com", adhaar := "123456789012", dob := "1994-01-01" }

/-- A table whose serial numbers are {1, 3, 4}: 2 is a gap left by a
deletion. -/
def gapTable : List Entry :=
  [sampleEntry 1 "A1", sampleEntry 3 "A3", sampleEntry 4 "A4"]

/-- Add mode (cursor unset) while one entry exists: the state reached by
`reset_form` after `sampleEntry 1 "A1"` was created. -/
def addModeState : EntryFormView.ViewState :=
  { table := [sampleEntry 1 "A1"], entries := [sampleEntry 1 "A1"],
    current_entry_index := none, sr_no_var := 2, date_var := "2024-01-02",
    associate_id_var := "", name_var := "", mobile_var := "", height_var := "",
    age_var := 0, email_var := "", adhaar_var := "", dob_var := "" }

/-- Browse mode at index 1 of a two-row table, row 2 loaded. -/
def browseState : EntryFormView.ViewState :=
  EntryFormView.load_entry
    { table := [sampleEntry 1 "A1", sampleEntry 2 "A2"],
      entries := [sampleEntry 1 "A1", sampleEntry 2 "A2"],
      current_entry_index := some 1, sr_no_var := 0, date_var := "",
      associate_id_var := "", name_var := "", mobile_var := "",
      height_var := "", age_var := 0, email_var := "", adhaar_var := "",
      dob_var := "" }
    (sampleEntry 2 "A2")

/-! ## Helper lemmas -/

open EntryFormLogic EntryFormView

lemma mem_ite_singleton {c : Prop} [Decidable c] {m a : String} :
    (a ∈ if c then [m] else ([] : List String)) ↔ c ∧ a = m := by
  split <;> simp_all

lemma mem_ite_ite {c1 c2 : Prop} [Decidable c1] [Decidable c2] {m1 m2 a : String} :
    (a ∈ if c1 then [m1] else if c2 then [m2] else ([] : List String)) ↔
      (c1 ∧ a = m1) ∨ (¬c1 ∧ c2 ∧ a = m2) := by
  by_cases h1 : c1 <;> by_cases h2 : c2 <;> simp [h1, h2]

lemma mem_match_dup {o : Option Entry} {p : Entry → Prop} [DecidablePred p] {m a : String} :
    (a ∈ match o with
         | some e0 => if p e0 then [m] else ([] : List String)
         | none => []) ↔ ∃ e0, o = some e0 ∧ p e0 ∧ a = m := by
  cases o with
  | none => simp
  | some e0 => split <;> simp_all

lemma mem_validate_assoc (t : List Entry) (d : Entry) (u : Bool) :
    "Associate I.D. No. is required." ∈ validate_form t d u ↔ d.associate_id = "" := by
  simp only [validate_form, List.mem_append, mem_ite_singleton, mem_ite_ite, mem_match_dup]
  simp +decide

lemma mem_validate_name (t : List Entry) (d : Entry) (u : Bool) :
    "Name is required." ∈ validate_form t d u ↔ d.name = "" := by
  simp only [validate_form, List.mem_append, mem_ite_singleton, mem_ite_ite, mem_match_dup]
  simp +decide

lemma mem_validate_mobile_req (t : List Entry) (d : Entry) (u : Bool) :
    "Mobile number is required." ∈ validate_form t d u ↔ d.mobile = "" := by
  simp only [validate_form, List.mem_append, mem_ite_singleton, mem_ite_ite, mem_match_dup]
  simp +decide

lemma mem_validate_mobile_fmt (t : List Entry) (d : Entry) (u : Bool) :
    "Mobile number must be exactly 10 digits." ∈ validate_form t d u ↔
      d.mobile ≠ "" ∧ (d.mobile.length ≠ 10 ∨ pyIsDigit d.mobile = false) := by
  simp only [validate_form, List.mem_append, mem_ite_singleton, mem_ite_ite, mem_match_dup]
  simp +decide

lemma mem_validate_age (t : List Entry) (d : Entry) (u : Bool) :
    "Please enter a valid age between 0 and 120." ∈ validate_form t d u ↔
      d.age ≠ 0 ∧ (d.age < 0 ∨ 120 < d.age) := by
  simp only [validate_form, List.mem_append, mem_ite_singleton, mem_ite_ite, mem_match_dup]
  simp +decide

lemma mem_validate_email (t : List Entry) (d : Entry) (u : Bool) :
    "Please enter a valid email address." ∈ validate_form t d u ↔
      d.email ≠ "" ∧ d.email.data.contains '@' = false := by
  simp only [validate_form, List.mem_append, mem_ite_singleton, mem_ite_ite, mem_match_dup]
  simp +decide

lemma mem_validate_adhaar (t : List Entry) (d : Entry) (u : Bool) :
    "Adhaar Card No. must be exactly 12 digits." ∈ validate_form t d u ↔
      d.adhaar ≠ "" ∧ (d.adhaar.length ≠ 12 ∨ pyIsDigit d.adhaar = false) := by
  simp only [validate_form, List.mem_append, mem_ite_singleton, mem_ite_ite, mem_match_dup]
  simp +decide

lemma mem_validate_dup_assoc (t : List Entry) (d : Entry) (u : Bool) :
    "Duplicate Associate I.D. No. found." ∈ validate_form t d u ↔
      ∃ e0, t.find? (fun e => e.associate_id == d.associate_id) = some e0 ∧
        (u = false ∨ e0.sr_no ≠ d.sr_no) := by
  simp only [validate_form, List.mem_append, mem_ite_singleton, mem_ite_ite, mem_match_dup]
  simp +decide

lemma mem_validate_dup_sr (t : List Entry) (d : Entry) (u : Bool) :
    "Duplicate Sr. No. found." ∈ validate_form t d u ↔
      u = false ∧ (t.find? (fun e => e.sr_no == d.sr_no)).isSome := by
  simp only [validate_form, List.mem_append, mem_ite_singleton, mem_ite_ite, mem_match_dup]
  simp +decide

lemma ite_singleton_sublist {c : Prop} [Decidable c] {m : String} :
    (if c then [m] else ([] : List String)).Sublist [m] := by
  split <;> simp

lemma validate_sublist (t : List Entry) (d : Entry) (u : Bool) :
    (validate_form t d u).Sublist
      ["Associate I.D. No. is required.", "Name is required.",
       "Mobile number is required.", "Mobile number must be exactly 10 digits.",
       "Please enter a valid age between 0 and 120.",
       "Please enter a valid email address.",
       "Adhaar Card No. must be exactly 12 digits.",
       "Duplicate Associate I.D. No. found.", "Duplicate Sr. No. found."] := by
  unfold validate_form
  show List.Sublist _
    (["Associate I.D. No. is required."] ++ ["Name is required."] ++
     ["Mobile number is required.", "Mobile number must be exactly 10 digits."] ++
     ["Please enter a valid age between 0 and 120."] ++
     ["Please enter a valid email address."] ++
     ["Adhaar Card No. must be exactly 12 digits."] ++
     ["Duplicate Associate I.D. No. found."] ++ ["Duplicate Sr. No. found."])
  refine List.Sublist.append (List.Sublist.append (List.Sublist.append
    (List.Sublist.append (List.Sublist.append (List.Sublist.append
      (List.Sublist.append ?_ ?_) ?_) ?_) ?_) ?_) ?_) ?_
  · exact ite_singleton_sublist
  · exact ite_singleton_sublist
  · split
    · simp
    · split <;> simp
  · exact ite_singleton_sublist
  · exact ite_singleton_sublist
  · exact ite_singleton_sublist
  · cases t.find? (fun e => e.associate_id == d.associate_id) with
    | none => simp
    | some e0 => exact ite_singleton_sublist
  · exact ite_singleton_sublist

lemma maxSrNo_spec (t : List Entry) (h : t ≠ []) :
    ∃ m, maxSrNo t = some m ∧ m ∈ t.map Entry.sr_no ∧
      ∀ x ∈ t.map Entry.sr_no, x ≤ m := by
  induction t with
  | nil => exact absurd rfl h
  | cons e es ih =>
    cases es with
    | nil => exact ⟨e.sr_no, rfl, by simp, by simp⟩
    | cons f fs =>
      obtain ⟨m, hm, hmem, hub⟩ := ih (by simp)
      refine ⟨max e.sr_no m, ?_, ?_, ?_⟩
      · rw [show maxSrNo (e :: f :: fs) =
            (match maxSrNo (f :: fs) with
             | none => some e.sr_no
             | some m => some (max e.sr_no m)) from rfl, hm]
      · rcases max_choice e.sr_no m with hmx | hmx <;> rw [hmx]
        · exact List.mem_map_of_mem _ (List.mem_cons_self e _)
        · rw [List.map_cons]
          exact List.mem_cons_of_mem _ hmem
      · intro x hx
        rw [List.map_cons] at hx
        rcases List.mem_cons.mp hx with hx | hx
        · rw [hx]; exact le_max_left _ _
        · exact le_trans (hub x hx) (le_max_right _ _)

/-- C3: `get_next_sr_no` returns 1 on an empty table, otherwise the maximum
existing serial number plus one; on the gap table {1, 3, 4} it returns 5 and
never the gap 2. -/
theorem next_sr_no_max_plus_one (t : List Entry) :
    (t = [] → get_next_sr_no t = 1) ∧
    (t ≠ [] → ∃ m, m ∈ t.map Entry.sr_no ∧ (∀ x ∈ t.map Entry.sr_no, x ≤ m) ∧
      get_next_sr_no t = m + 1) ∧
    get_next_sr_no gapTable = 5 ∧ get_next_sr_no gapTable ≠ 2 := by
  refine ⟨?_, ?_, by decide, by decide⟩
  · rintro rfl; rfl
  · intro h
    obtain ⟨m, hm, hmem, hub⟩ := maxSrNo_spec t h
    exact ⟨m, hmem, hub, by simp [get_next_sr_no, hm]⟩

/-- C10: deleting a serial number that matches no stored row still returns
`True` and leaves the table unchanged. -/
theorem delete_missing_row_succeeds (t : List Entry) (sr : Int)
    (h : ∀ x ∈ t, x.sr_no ≠ sr) :
    EntryFormLogic.delete_entry t sr = (true, t) := by
  unfold EntryFormLogic.delete_entry delete_stmt
  rw [List.filter_eq_self.mpr]
  intro a ha
  simpa using h a ha

/-- Witness for C10 at a concrete table and a serial number not in it. -/
theorem delete_missing_row_succeeds_witness :
    EntryFormLogic.delete_entry [sampleEntry 1 "A1"] 99 =
      (true, [sampleEntry 1 "A1"]) :=
  delete_missing_row_succeeds _ _ (by decide)

/-- C6: create/update/delete report a storage error as `False` with the
table unchanged, return `True` with the statement's result otherwise, and
fail exactly on the UNIQUE-constraint conditions; delete always succeeds. -/
theorem crud_boolean_failure (t : List Entry) (d : Entry) (sr : Int) :
    ((save_entry t d).1 = (insert_row t d).isSome ∧
      (save_entry t d).2 = (insert_row t d).getD t) ∧
    ((save_entry t d).1 = false ↔
      (∃ x ∈ t, x.sr_no = d.sr_no) ∨ ∃ x ∈ t, x.associate_id = d.associate_id) ∧
    ((update_entry t d).1 = (update_stmt t d).isSome ∧
      (update_entry t d).2 = (update_stmt t d).getD t) ∧
    ((update_entry t d).1 = false ↔
      (∃ x ∈ t, x.sr_no = d.sr_no) ∧
        ∃ x ∈ t, x.sr_no ≠ d.sr_no ∧ x.associate_id = d.associate_id) ∧
    EntryFormLogic.delete_entry t sr = (true, delete_stmt t sr) := by
  refine ⟨?_, ?_, ?_, ?_, rfl⟩
  · cases h : insert_row t d <;> simp [save_entry, h]
  · have h1 : (t.find? (fun x => x.sr_no == d.sr_no)).isSome = true ↔
        ∃ x ∈ t, x.sr_no = d.sr_no := by
      rw [List.find?_isSome]; simp
    have h2 : (t.find? (fun x => x.associate_id == d.associate_id)).isSome = true ↔
        ∃ x ∈ t, x.associate_id = d.associate_id := by
      rw [List.find?_isSome]; simp
    by_cases c1 : (t.find? (fun x => x.sr_no == d.sr_no)).isSome <;>
      by_cases c2 : (t.find? (fun x => x.associate_id == d.associate_id)).isSome <;>
      simp [save_entry, insert_row, c1, c2, ← h1, ← h2]
  · cases h : update_stmt t d <;> simp [update_entry, h]
  · by_cases hc : (∃ x ∈ t, x.sr_no = d.sr_no) ∧
        ∃ x ∈ t, x.sr_no ≠ d.sr_no ∧ x.associate_id = d.associate_id
    · simp [update_entry, update_stmt, hc]
    · simp [update_entry, update_stmt, hc]

lemma update_entry_result (t : List Entry) (d : Entry)
    (hok : (update_entry t d).1 = true) :
    (update_entry t d).2 =
      t.map (fun e => if e.sr_no == d.sr_no then rewrite_row d e else e) := by
  unfold update_entry update_stmt at hok ⊢
  by_cases hc : (∃ e ∈ t, e.sr_no = d.sr_no) ∧
      ∃ e ∈ t, e.sr_no ≠ d.sr_no ∧ e.associate_id = d.associate_id
  · simp [hc] at hok
  · simp [hc]

/-- C9: a successful update rewrites every field except the serial number of
the row whose serial number matches, and leaves every other row unchanged. -/
theorem update_rewrites_matching_row_only (t : List Entry) (d : Entry)
    (i : Nat) (old : Entry)
    (hok : (update_entry t d).1 = true) (hi : t[i]? = some old) :
    (update_entry t d).2.length = t.length ∧
    (old.sr_no = d.sr_no → (update_entry t d).2[i]? =
      some { sr_no := old.sr_no, associate_id := d.associate_id, date := d.date,
             name := d.name, mobile := d.mobile, height := d.height,
             age := d.age, email := d.email, adhaar := d.adhaar,
             dob := d.dob }) ∧
    (old.sr_no ≠ d.sr_no → (update_entry t d).2[i]? = some old) := by
  rw [update_entry_result t d hok]
  refine ⟨by simp, ?_, ?_⟩
  · intro heq
    rw [List.getElem?_map, hi]
    simp [rewrite_row, heq]
  · intro hne
    rw [List.getElem?_map, hi]
    simp [hne]

/-- Witness for C9: updating row 2 of a two-row table to a fresh
associate id. -/
theorem update_rewrites_matching_row_only_witness :
    (update_entry [sampleEntry 1 "A1", sampleEntry 2 "A2"]
        (sampleEntry 2 "B2")).2.length =
      ([sampleEntry 1 "A1", sampleEntry 2 "A2"] : List Entry).length ∧
    ((sampleEntry 2 "A2").sr_no = (sampleEntry 2 "B2").sr_no →
      (update_entry [sampleEntry 1 "A1", sampleEntry 2 "A2"]
          (sampleEntry 2 "B2")).2[1]? =
        some { sr_no := (sampleEntry 2 "A2").sr_no,
               associate_id := (sampleEntry 2 "B2").associate_id,
               date := (sampleEntry 2 "B2").date,
               name := (sampleEntry 2 "B2").name,
               mobile := (sampleEntry 2 "B2").mobile,
               height := (sampleEntry 2 "B2").height,
               age := (sampleEntry 2 "B2").age,
               email := (sampleEntry 2 "B2").email,
               adhaar := (sampleEntry 2 "B2").adhaar,
               dob := (sampleEntry 2 "B2").dob }) ∧
    ((sampleEntry 2 "A2").sr_no ≠ (sampleEntry 2 "B2").sr_no →
      (update_entry [sampleEntry 1 "A1", sampleEntry 2 "A2"]
          (sampleEntry 2 "B2")).2[1]? = some (sampleEntry 2 "A2")) :=
  update_rewrites_matching_row_only _ _ 1 _ (by decide) (by decide)

/-- C1: an entry that passes creation-mode validation is inserted
successfully, and `get` on its serial number returns it, equal in all ten
fields. -/
theorem create_get_roundtrip (t : List Entry) (e : Entry)
    (h : validate_form t e false = []) :
    save_entry t e = (true, t ++ [e]) ∧
    get_entry_by_sr_no (t ++ [e]) e.sr_no = some e := by
  have hsr : t.find? (fun x => x.sr_no == e.sr_no) = none := by
    cases hf : t.find? (fun x => x.sr_no == e.sr_no) with
    | none => rfl
    | some x =>
      have hmem := (mem_validate_dup_sr t e false).mpr ⟨rfl, by rw [hf]; rfl⟩
      rw [h] at hmem
      simp at hmem
  have hassoc : t.find? (fun x => x.associate_id == e.associate_id) = none := by
    cases hf : t.find? (fun x => x.associate_id == e.associate_id) with
    | none => rfl
    | some x =>
      have hmem := (mem_validate_dup_assoc t e false).mpr ⟨x, hf, Or.inl rfl⟩
      rw [h] at hmem
      simp at hmem
  constructor
  · simp [save_entry, insert_row, hsr, hassoc]
  · unfold get_entry_by_sr_no
    rw [List.find?_append, hsr]
    simp

/-- Witness for C1: creating a fully valid entry in an empty store. -/
theorem create_get_roundtrip_witness :
    save_entry [] (sampleEntry 1 "A1") = (true, [] ++ [sampleEntry 1 "A1"]) ∧
    get_entry_by_sr_no ([] ++ [sampleEntry 1 "A1"]) (sampleEntry 1 "A1").sr_no =
      some (sampleEntry 1 "A1") :=
  create_get_roundtrip [] (sampleEntry 1 "A1") (by decide)

/-- C2: with unique associate ids, re-validating a stored entry's own data
in update mode reports no duplicate-associate error, while creation-mode
validation of data whose associate id matches any stored row does. -/
theorem dup_assoc_self_exclusion (t : List Entry) (e d : Entry)
    (_hmem : e ∈ t)
    (huniq : ∀ x ∈ t, x.associate_id = e.associate_id → x.sr_no = e.sr_no)
    (hd : ∃ x ∈ t, x.associate_id = d.associate_id) :
    "Duplicate Associate I.D. No. found." ∉ validate_form t e true ∧
    "Duplicate Associate I.D. No. found." ∈ validate_form t d false := by
  constructor
  · intro hin
    obtain ⟨e0, hf, hor⟩ := (mem_validate_dup_assoc t e true).mp hin
    rcases hor with htf | hne
    · cases htf
    · have h1 : e0.associate_id = e.associate_id := by
        have := List.find?_some hf
        simpa using this
      exact hne (huniq e0 (List.mem_of_find?_eq_some hf) h1)
  · obtain ⟨x, hx, hxa⟩ := hd
    have hs : (t.find? (fun y => y.associate_id == d.associate_id)).isSome = true := by
      rw [List.find?_isSome]
      exact ⟨x, hx, by simp [hxa]⟩
    obtain ⟨e0, hf⟩ := Option.isSome_iff_exists.mp hs
    exact (mem_validate_dup_assoc t d false).mpr ⟨e0, hf, Or.inl rfl⟩

/-- Witness for C2: a one-row store, the row's own data re-validated in
update mode, and a fresh entry reusing its associate id in creation mode. -/
theorem dup_assoc_self_exclusion_witness :
    "Duplicate Associate I.D. No. found." ∉
      validate_form [sampleEntry 1 "A1"] (sampleEntry 1 "A1") true ∧
    "Duplicate Associate I.D. No. found." ∈
      validate_form [sampleEntry 1 "A1"] (sampleEntry 2 "A1") false :=
  dup_assoc_self_exclusion [sampleEntry 1 "A1"] (sampleEntry 1 "A1")
    (sampleEntry 2 "A1") (by decide) (by decide) (by decide)

/-- The claim "mobile-format error exactly when non-empty and not 10 ASCII
digits" fails on the program: the Arabic-Indic digit string "٠١٢٣٤٥٦٧٨٩"
has length 10 and satisfies Python `str.isdigit`, so line 65 of
`src/app.py` reports no error, yet it is not a string of ASCII digits. -/
theorem mobile_format_validation_cex :
    ¬(("Mobile number must be exactly 10 digits." ∈
        validate_form [] { sampleEntry 1 "A1" with mobile := "٠١٢٣٤٥٦٧٨٩" }
          false) ↔
      ({ sampleEntry 1 "A1" with mobile := "٠١٢٣٤٥٦٧٨٩" } : Entry).mobile
          ≠ "" ∧
        ¬(({ sampleEntry 1 "A1" with mobile := "٠١٢٣٤٥٦٧٨٩" } : Entry).mobile.length
            = 10 ∧
          ∀ c ∈ ({ sampleEntry 1 "A1" with
            mobile := "٠١٢٣٤٥٦٧٨٩" } : Entry).mobile.data,
            '0' ≤ c ∧ c ≤ '9')) := by
  decide

/-- C4 (amended): the mobile-format error is reported exactly when the
mobile field is non-empty and is not a string of exactly 10 characters
accepted by Python `str.isdigit` (which also accepts non-ASCII Unicode
digits); an empty mobile yields the missing-mobile error instead. -/
theorem mobile_format_validation (t : List Entry) (d : Entry) (u : Bool) :
    ("Mobile number must be exactly 10 digits." ∈ validate_form t d u ↔
      d.mobile ≠ "" ∧
        ¬(d.mobile.length = 10 ∧ ∀ c ∈ d.mobile.data, pyIsDigitChar c = true)) ∧
    (d.mobile = "" →
      "Mobile number is required." ∈ validate_form t d u ∧
      "Mobile number must be exactly 10 digits." ∉ validate_form t d u) := by
  constructor
  · rw [mem_validate_mobile_fmt]
    refine and_congr_right fun hne => ?_
    have hdata : ¬d.mobile.data = [] := by
      intro h0
      exact hne (String.ext_iff.mpr (by simp [h0]))
    rw [not_and_or]
    apply or_congr Iff.rfl
    simp [pyIsDigit, List.isEmpty_iff, hdata, List.all_eq_true]
  · intro h0
    refine ⟨(mem_validate_mobile_req t d u).mpr h0, ?_⟩
    rw [mem_validate_mobile_fmt]
    rintro ⟨hne, _⟩
    exact hne h0

/-- C5: validation returns a sublist of one fixed ordered message list (the
order is fixed), and each message is present exactly when its condition
holds (every applicable error is collected, not just the first). -/
theorem validate_fixed_order_collects_all (t : List Entry) (d : Entry) (u : Bool) :
    (validate_form t d u).Sublist
      ["Associate I.D. No. is required.", "Name is required.",
       "Mobile number is required.", "Mobile number must be exactly 10 digits.",
       "Please enter a valid age between 0 and 120.",
       "Please enter a valid email address.",
       "Adhaar Card No. must be exactly 12 digits.",
       "Duplicate Associate I.D. No. found.", "Duplicate Sr. No. found."] ∧
    ("Associate I.D. No. is required." ∈ validate_form t d u ↔
      d.associate_id = "") ∧
    ("Name is required." ∈ validate_form t d u ↔ d.name = "") ∧
    ("Mobile number is required." ∈ validate_form t d u ↔ d.mobile = "") ∧
    ("Mobile number must be exactly 10 digits." ∈ validate_form t d u ↔
      d.mobile ≠ "" ∧ (d.mobile.length ≠ 10 ∨ pyIsDigit d.mobile = false)) ∧
    ("Please enter a valid age between 0 and 120." ∈ validate_form t d u ↔
      d.age ≠ 0 ∧ (d.age < 0 ∨ 120 < d.age)) ∧
    ("Please enter a valid email address." ∈ validate_form t d u ↔
      d.email ≠ "" ∧ d.email.data.contains '@' = false) ∧
    ("Adhaar Card No. must be exactly 12 digits." ∈ validate_form t d u ↔
      d.adhaar ≠ "" ∧ (d.adhaar.length ≠ 12 ∨ pyIsDigit d.adhaar = false)) ∧
    ("Duplicate Associate I.D. No. found." ∈ validate_form t d u ↔
      ∃ e0, t.find? (fun e => e.associate_id == d.associate_id) = some e0 ∧
        (u = false ∨ e0.sr_no ≠ d.sr_no)) ∧
    ("Duplicate Sr. No. found." ∈ validate_form t d u ↔
      u = false ∧ (t.find? (fun e => e.sr_no == d.sr_no)).isSome) :=
  ⟨validate_sublist t d u, mem_validate_assoc t d u, mem_validate_name t d u,
   mem_validate_mobile_req t d u, mem_validate_mobile_fmt t d u,
   mem_validate_age t d u, mem_validate_email t d u, mem_validate_adhaar t d u,
   mem_validate_dup_assoc t d u, mem_validate_dup_sr t d u⟩

/-- C8: in Add mode with one entry present, Previous and Next are enabled,
yet invoking either leaves the state unchanged and shows "No entries
available." instead of jumping to Browse mode at the first entry. -/
theorem addmode_nav_enabled_but_dead :
    addModeState.entries ≠ [] ∧
    addModeState.current_entry_index = none ∧
    (set_navigation_buttons_state addModeState).prev_enabled = true ∧
    (set_navigation_buttons_state addModeState).next_enabled = true ∧
    next_entry addModeState = (addModeState, some "No entries available.") ∧
    prev_entry addModeState = (addModeState, some "No entries available.") :=
  ⟨by decide, rfl, rfl, rfl, rfl, rfl⟩

lemma get_delete_none (t : List Entry) (sr : Int) :
    get_entry_by_sr_no (delete_stmt t sr) sr = none := by
  unfold get_entry_by_sr_no delete_stmt
  rw [List.find?_eq_none]
  intro x hx
  have h2 := (List.mem_filter.mp hx).2
  simp only [bne_iff_ne, ne_eq] at h2
  simp [h2]

lemma delete_entry_eval (today : String) (s : ViewState) (i : Nat)
    (hidx : s.current_entry_index = some i) :
    EntryFormView.delete_entry today true s =
      (if (s.entries.eraseIdx i).isEmpty then
        (reset_form today
          { s with table := delete_stmt s.table s.sr_no_var,
                   entries := s.entries.eraseIdx i },
         some "Entry deleted successfully.")
      else
        match (s.entries.eraseIdx i)[
            if (s.entries.eraseIdx i).length ≤ i then
              (s.entries.eraseIdx i).length - 1 else i]? with
        | some e =>
          (load_entry
            { s with table := delete_stmt s.table s.sr_no_var,
                     entries := s.entries.eraseIdx i,
                     current_entry_index :=
                       some (if (s.entries.eraseIdx i).length ≤ i then
                         (s.entries.eraseIdx i).length - 1 else i) } e,
           some "Entry deleted successfully.")
        | none =>
          ({ s with table := delete_stmt s.table s.sr_no_var,
                    entries := s.entries.eraseIdx i,
                    current_entry_index :=
                      some (if (s.entries.eraseIdx i).length ≤ i then
                        (s.entries.eraseIdx i).length - 1 else i) },
           some "Entry deleted successfully.")) := by
  unfold EntryFormView.delete_entry
  rw [hidx]
  rfl

/-- C7: a confirmed successful delete in Browse mode removes the row (a
subsequent get by that serial number is not-found), shrinks the cached list
by exactly one, and re-clamps the cursor: Add mode when the list became
empty, otherwise cursor `min i (length - 1)` with that entry loaded. -/
theorem browse_delete_reclamps (today : String) (s : ViewState) (i : Nat) (e : Entry)
    (hidx : s.current_entry_index = some i)
    (he : s.entries[i]? = some e)
    (hsr : s.sr_no_var = e.sr_no)
    (hcache : s.entries = get_all_entries s.table) :
    get_entry_by_sr_no (EntryFormView.delete_entry today true s).1.table
      s.sr_no_var = none ∧
    (EntryFormView.delete_entry today true s).1.entries.length + 1 =
      s.entries.length ∧
    ((EntryFormView.delete_entry today true s).1.entries = [] →
      (EntryFormView.delete_entry today true s).1.current_entry_index = none) ∧
    ((EntryFormView.delete_entry today true s).1.entries ≠ [] →
      ∃ e2,
        (EntryFormView.delete_entry today true s).1.current_entry_index =
          some (min i
            ((EntryFormView.delete_entry today true s).1.entries.length - 1)) ∧
        (EntryFormView.delete_entry today true s).1.entries[
          min i ((EntryFormView.delete_entry today true s).1.entries.length - 1)]?
          = some e2 ∧
        (EntryFormView.delete_entry today true s).1.sr_no_var = e2.sr_no ∧
        (EntryFormView.delete_entry today true s).1.associate_id_var =
          e2.associate_id ∧
        (EntryFormView.delete_entry today true s).1.date_var = e2.date ∧
        (EntryFormView.delete_entry today true s).1.name_var = e2.name ∧
        (EntryFormView.delete_entry today true s).1.mobile_var = e2.mobile ∧
        (EntryFormView.delete_entry today true s).1.height_var = e2.height ∧
        (EntryFormView.delete_entry today true s).1.age_var = e2.age ∧
        (EntryFormView.delete_entry today true s).1.email_var = e2.email ∧
        (EntryFormView.delete_entry today true s).1.adhaar_var = e2.adhaar ∧
        (EntryFormView.delete_entry today true s).1.dob_var = e2.dob) := by
  have hi : i < s.entries.length := by
    rcases List.getElem?_eq_some_iff.mp he with ⟨h, _⟩
    exact h
  have hlen : (s.entries.eraseIdx i).length = s.entries.length - 1 := by
    rw [List.length_eraseIdx, if_pos hi]
  rw [delete_entry_eval today s i hidx]
  by_cases hemp : (s.entries.eraseIdx i).isEmpty
  · rw [if_pos hemp]
    have h0 : (s.entries.eraseIdx i).length = 0 := by
      rw [List.isEmpty_iff] at hemp
      rw [hemp]
      rfl
    have hlen1 : s.entries.length = 1 := by omega
    obtain ⟨a, ha⟩ := List.length_eq_one.mp hlen1
    have hae : a = e := by
      rw [ha] at he
      have hi0 : i = 0 := by omega
      rw [hi0] at he
      simpa using he
    have hse : s.entries = [e] := by rw [ha, hae]
    have htab : s.table = [e] := by
      have hperm : (get_all_entries s.table).Perm s.table :=
        List.perm_insertionSort _ s.table
      rw [← hcache, hse] at hperm
      exact List.perm_singleton.mp hperm.symm
    have hdel : delete_stmt s.table s.sr_no_var = [] := by
      rw [htab, hsr]
      simp [delete_stmt]
    refine ⟨?_, ?_, ?_, ?_⟩
    · exact get_delete_none _ _
    · show (get_all_entries (delete_stmt s.table s.sr_no_var)).length + 1 =
        s.entries.length
      rw [hdel, hlen1]
      rfl
    · intro _
      rfl
    · intro hcontra
      exact absurd
        (show get_all_entries (delete_stmt s.table s.sr_no_var) = [] by
          rw [hdel]; rfl) hcontra
  · rw [if_neg hemp]
    have hne : s.entries.eraseIdx i ≠ [] := by
      intro h0
      exact hemp (by simp [h0])
    have hpos : 0 < (s.entries.eraseIdx i).length := List.length_pos.mpr hne
    have hjlt : (if (s.entries.eraseIdx i).length ≤ i then
        (s.entries.eraseIdx i).length - 1 else i) < (s.entries.eraseIdx i).length := by
      split
      · omega
      · rename_i hgt
        omega
    have hjmin : (if (s.entries.eraseIdx i).length ≤ i then
        (s.entries.eraseIdx i).length - 1 else i) =
        min i ((s.entries.eraseIdx i).length - 1) := by
      split <;> omega
    rw [List.getElem?_eq_getElem hjlt]
    refine ⟨get_delete_none _ _, ?_, ?_, ?_⟩
    · show (s.entries.eraseIdx i).length + 1 = s.entries.length
      omega
    · intro h0
      exact absurd h0 hne
    · intro _
      refine ⟨(s.entries.eraseIdx i)[
          if (s.entries.eraseIdx i).length ≤ i then
            (s.entries.eraseIdx i).length - 1 else i], ?_, ?_,
        rfl, rfl, rfl, rfl, rfl, rfl, rfl, rfl, rfl, rfl⟩
      · show some _ = some (min i ((s.entries.eraseIdx i).length - 1))
        rw [hjmin]
      · show (s.entries.eraseIdx i)[
            min i ((s.entries.eraseIdx i).length - 1)]? = some _
        rw [← hjmin]
        exact List.getElem?_eq_getElem hjlt

/-- Witness for C7: deleting the second of two rows from Browse mode. -/
theorem browse_delete_reclamps_witness :
    get_entry_by_sr_no
        (EntryFormView.delete_entry "2024-01-02" true browseState).1.table
        browseState.sr_no_var = none ∧
    (EntryFormView.delete_entry "2024-01-02" true browseState).1.entries.length
        + 1 = browseState.entries.length := by
  have h := browse_delete_reclamps "2024-01-02" browseState 1
    (sampleEntry 2 "A2") rfl (by decide) (by decide) (by decide)
  exact ⟨h.1, h.2.1⟩
